import Mathlib

/-!
Verification of the midosis-voice command-interpretation engine.

This file shallowly embeds the relevant parts of the repository:

* `src/nlp/medication_parser.py` — the `MedicationParser` class, its static
  tables, the per-slot extractors, the confidence scorer, the validator and
  the module-level orchestrator `extract_medication_info`;
* `src/nlp/command_variation_generator.py` — the `CommandVariationGenerator`
  class and its `generate_variations` entry point.

Modelling conventions:

* Python strings are modelled as `String` / `List Char`.  Regular-expression
  searches are modelled by explicit scanning functions: `searchL` tries the
  pattern matcher at every position from the left (the semantics of
  `re.search`), and each fixed pattern of the source is translated into one
  matcher function with the same greedy/backtracking behaviour.
* Python dicts whose keys are fixed in the source are modelled as structures;
  an absent key is `none`.  Iteration over a dict follows Python's insertion
  order, so each table is an ordered association list.
* Floats are modelled as exact rationals (`ℚ`): every constant in the scorer
  (0.7, 0.6, 0.8, 1.2, 1.1) is a decimal that only ever enters products and
  clamping comparisons, which the claims state over real numbers.
* `MedicationParser.__init__` tries to load a spaCy model and sets
  `self.nlp = None` when it is unavailable; every claim concerns the
  deterministic keyword/regex path, so the embedding models the parser with
  `self.nlp = None` (the code's own documented fallback).  The spaCy model is
  an external statistical component and is not part of this repository.
* `str.lower`/`str.strip`/`str.capitalize` are modelled on ASCII plus the
  accented Spanish letters that occur in the tables.
-/

abbrev Chars := List Char

/-- Python whitespace characters recognised by `str.strip` / `\s` (ASCII part). -/
def isSpaceC (c : Char) : Bool :=
  c = ' ' || c = '\t' || c = '\n' || c = '\r' || c = '\x0b' || c = '\x0c'

/-- Numeric value of a decimal digit character. -/
def digitVal (c : Char) : Nat := c.toNat - 48

/-- The decimal digit character for a value below ten. -/
def digitChar (d : Nat) : Char :=
  match d with
  | 0 => '0' | 1 => '1' | 2 => '2' | 3 => '3' | 4 => '4'
  | 5 => '5' | 6 => '6' | 7 => '7' | 8 => '8' | 9 => '9'
  | _ => '0'

/-- Lower-casing of one character: ASCII letters plus the accented Spanish
letters used by the tables (`str.lower` restricted to the alphabet of this
program). -/
def pyLowerChar (c : Char) : Char :=
  if 'A' ≤ c ∧ c ≤ 'Z' then Char.ofNat (c.toNat + 32)
  else if c = 'Á' then 'á' else if c = 'É' then 'é' else if c = 'Í' then 'í'
  else if c = 'Ó' then 'ó' else if c = 'Ú' then 'ú' else if c = 'Ñ' then 'ñ'
  else if c = 'Ü' then 'ü' else c

/-- Upper-casing of one character (used by `str.capitalize`). -/
def pyUpperChar (c : Char) : Char :=
  if 'a' ≤ c ∧ c ≤ 'z' then Char.ofNat (c.toNat - 32)
  else if c = 'á' then 'Á' else if c = 'é' then 'É' else if c = 'í' then 'Í'
  else if c = 'ó' then 'Ó' else if c = 'ú' then 'Ú' else if c = 'ñ' then 'Ñ'
  else if c = 'ü' then 'Ü' else c

/-- `str.lower` on a character list. -/
def pyLower (l : Chars) : Chars := l.map pyLowerChar

/-- `str.strip()`: drop whitespace from both ends. -/
def pyStrip (l : Chars) : Chars :=
  ((l.dropWhile isSpaceC).reverse.dropWhile isSpaceC).reverse

/-- `str.capitalize()`: first character upper-cased, the rest lower-cased. -/
def pyCapitalizeL (w : Chars) : String :=
  match w with
  | [] => ""
  | c :: r => ⟨pyUpperChar c :: r.map pyLowerChar⟩

/-- `str.capitalize()` on a `String`. -/
def pyCapitalizeS (s : String) : String := pyCapitalizeL s.data

/-- Match a literal character sequence at the current position, returning the
rest of the input. -/
def takeLit : Chars → Chars → Option Chars
  | [], l => some l
  | _ :: _, [] => none
  | p :: ps, c :: cs => if c = p then takeLit ps cs else none

/-- `re.search` position loop: try the matcher at every position from the
left; the leftmost successful position wins. -/
def searchL {α : Type} (m : Chars → Option α) : Chars → Option α
  | [] => m []
  | c :: cs => (m (c :: cs)) <|> searchL m cs

/-- Python's substring test `needle in haystack`. -/
def subIn (needle : String) (hay : Chars) : Bool :=
  (searchL (fun r => takeLit needle.data r) hay).isSome

/-- Greedy `\s*`. -/
def skipSpacesC (l : Chars) : Chars := l.dropWhile isSpaceC

/-- Greedy `\s+` (at least one whitespace character). -/
def takeSpaces1 (l : Chars) : Option Chars :=
  match l with
  | c :: cs => if isSpaceC c then some (cs.dropWhile isSpaceC) else none
  | [] => none

/-- Greedy `\d+`: the maximal digit run (failing when empty), with the rest. -/
def takeDigitRun (l : Chars) : Option (Chars × Chars) :=
  let d := l.takeWhile Char.isDigit
  if d.isEmpty then none else some (d, l.dropWhile Char.isDigit)

/-- Exactly two digits (`\d{2}`), as a value. -/
def take2D (l : Chars) : Option (Nat × Chars) :=
  match l with
  | a :: b :: r =>
    if a.isDigit && b.isDigit then some (10 * digitVal a + digitVal b, r) else none
  | _ => none

/-- Exactly one digit, as a value. -/
def take1D (l : Chars) : Option (Nat × Chars) :=
  match l with
  | a :: r => if a.isDigit then some (digitVal a, r) else none
  | [] => none

/-- `\d{1,2}` with regex backtracking: try two digits, then one, each with the
continuation of the rest of the pattern. -/
def take12D {α : Type} (k : Nat → Chars → Option α) (l : Chars) : Option α :=
  (match take2D l with
   | some (n, r) => k n r
   | none => none) <|>
  (match take1D l with
   | some (n, r) => k n r
   | none => none)

/-- Exactly two digits (`\d{2}`), kept as characters. -/
def take2DC (l : Chars) : Option (Chars × Chars) :=
  match l with
  | a :: b :: r => if a.isDigit && b.isDigit then some ([a, b], r) else none
  | _ => none

/-- `\d{1,2}` kept as characters, with regex backtracking. -/
def take12DC {α : Type} (k : Chars → Chars → Option α) (l : Chars) : Option α :=
  (match take2DC l with
   | some (d, r) => k d r
   | none => none) <|>
  (match l with
   | a :: r => if a.isDigit then k [a] r else none
   | [] => none)

/-- Ordered alternation of literals `(a|b|…)`, each followed by the
continuation `k matchedLiteral rest`; the first alternative whose literal and
continuation both succeed wins (regex alternation with backtracking). -/
def altFirst {α : Type} (k : String → Chars → Option α) :
    List String → Chars → Option α
  | [], _ => none
  | s :: rest, l =>
    (match takeLit s.data l with
     | some r => k s r
     | none => none) <|> altFirst k rest l

/-- A literal stem followed by a greedy optional `s` (patterns like
`frascos?`); returns the matched text. -/
def takeStemS (stem : String) (l : Chars) : Option String :=
  match takeLit stem.data l with
  | some r =>
    match r with
    | 's' :: _ => some (stem ++ "s")
    | _ => some stem
  | none => none

/-- First stem-plus-optional-`s` alternative that matches. -/
def firstStemS : List String → Chars → Option String
  | [], _ => none
  | st :: rest, l =>
    match takeStemS st l with
    | some u => some u
    | none => firstStemS rest l

/-- Decimal value of a digit-character list (`int` on a digit string). -/
def digitsVal (l : Chars) : Nat :=
  l.foldl (fun a c => 10 * a + digitVal c) 0

/-- Decimal digit characters of `n`, most significant first, with explicit
fuel (structural recursion; `natChars` supplies enough fuel). -/
def natCharsFuel : Nat → Nat → Chars
  | 0, _ => []
  | fuel + 1, n =>
    if n < 10 then [digitChar n]
    else natCharsFuel fuel (n / 10) ++ [digitChar (n % 10)]

/-- Decimal digit characters of `n`. -/
def natChars (n : Nat) : Chars := natCharsFuel (n + 1) n

/-- Python's `f"{n:02d}"`: zero-padded to (at least) two digits. -/
def fmt02c (n : Nat) : Chars :=
  if n < 10 then '0' :: natChars n else natChars n

/-- Python's `f"{h:02d}:{m:02d}"`. -/
def fmtHM (h m : Nat) : String := ⟨fmt02c h ++ ':' :: fmt02c m⟩

/-- Split a character list at every occurrence of `c` (`str.split(c)`). -/
def splitOnChar (c : Char) : Chars → List Chars
  | [] => [[]]
  | x :: xs =>
    match splitOnChar c xs with
    | [] => if x = c then [[], []] else [[x]]
    | y :: ys => if x = c then [] :: y :: ys else (x :: y) :: ys

/-- Trim whitespace from both ends (what `int(...)` tolerates). -/
def trimC (l : Chars) : Chars :=
  ((l.dropWhile isSpaceC).reverse.dropWhile isSpaceC).reverse

/-- The unsigned part of Python's `int(...)`: all characters must be digits
and there must be at least one. -/
def natPart (l : Chars) : Option Nat :=
  if l ≠ [] ∧ ∀ c ∈ l, c.isDigit then some (digitsVal l) else none

/-- Python's `int(str)`: optional surrounding whitespace, optional sign, then
decimal digits; any other shape raises (modelled as `none`). -/
def pyIntL (l : Chars) : Option Int :=
  match trimC l with
  | [] => none
  | c :: r =>
    if c = '+' then (natPart r).map Int.ofNat
    else if c = '-' then (natPart r).map (fun n => -(n : Int))
    else (natPart (c :: r)).map Int.ofNat

/-- First pair of an ordered table whose key occurs in the text as a
substring; this is how the source iterates `dict.items()`. -/
def firstSub : List (String × String) → Chars → Option String
  | [], _ => none
  | (k, v) :: rest, l => if subIn k l then some v else firstSub rest l

/-- Python word character `\w` for the alphabet of this program: ASCII
alphanumerics, underscore and the accented Spanish letters. -/
def isWordChar (c : Char) : Bool :=
  c.isAlphanum || c = '_' || c = 'á' || c = 'é' || c = 'í' || c = 'ó' ||
  c = 'ú' || c = 'ñ' || c = 'ü'

/-- Greedy `\w+`: maximal word-character run (failing when empty). -/
def takeWordRun (l : Chars) : Option (Chars × Chars) :=
  let w := l.takeWhile isWordChar
  if w.isEmpty then none else some (w, l.dropWhile isWordChar)

/-! ## Static tables of `MedicationParser.__init__` -/

/-- `self.common_medications` (lines 21–29). -/
def commonMedications : List String :=
  ["paracetamol", "ibuprofeno", "omeprazol", "aspirina",
   "amoxicilina", "loratadina", "metformina", "enalapril",
   "atorvastatina", "losartán", "clonazepam", "diazepam",
   "sertralina", "citalopram", "warfarin", "insulina",
   "levotiroxina", "metoprolol", "hidroclorotiazida",
   "simvastatina", "ramipril", "valsartán", "amlodipino",
   "bisoprolol", "prednisona", "dexametasona"]

/-- `self.frequency_map` (lines 32–47) in Python insertion order. -/
def frequencyMap : List (String × String) :=
  [("diario", "Diario"),
   ("todos los días", "Diario"),
   ("cada día", "Diario"),
   ("una vez al día", "Diario"),
   ("cada 8 horas", "Cada 8 horas"),
   ("cada ocho horas", "Cada 8 horas"),
   ("cada 12 horas", "Cada 12 horas"),
   ("cada doce horas", "Cada 12 horas"),
   ("dos veces al día", "Cada 12 horas"),
   ("semanal", "Semanal"),
   ("una vez por semana", "Semanal"),
   ("cada semana", "Semanal"),
   ("cuando sea necesario", "Cuando sea necesario"),
   ("al necesitar", "Cuando sea necesario")]

/-- `self.action_keywords` (lines 50–76) in Python insertion order. -/
def actionKeywords : List (String × String) :=
  [("agregar", "add_medication"),
   ("añadir", "add_medication"),
   ("poner", "add_medication"),
   ("programar", "add_medication"),
   ("registrar", "add_medication"),
   ("eliminar", "delete_medication"),
   ("quitar", "delete_medication"),
   ("borrar", "delete_medication"),
   ("cancelar", "delete_medication"),
   ("listar", "list_medications"),
   ("mostrar", "list_medications"),
   ("ver", "list_medications"),
   ("qué", "list_medications"),
   ("cuáles", "list_medications"),
   ("recordar", "set_reminder"),
   ("recordarme", "set_reminder"),
   ("avisar", "set_reminder"),
   ("alerta", "set_reminder"),
   ("tomé", "check_medication"),
   ("tomo", "check_medication"),
   ("tomar", "check_medication"),
   ("consumí", "check_medication"),
   ("hoy", "check_today"),
   ("mañana", "check_tomorrow"),
   ("ayer", "check_yesterday")]

/-! ## Slot extractors of `MedicationParser` (spaCy model unavailable) -/

/-- `_detect_action` (lines 122–137) with `self.nlp = None`: the regex
fallback scans the keyword table in order and the first keyword occurring in
the text (as a substring) wins. -/
def detectAction (l : Chars) : Option String := firstSub actionKeywords l

/-- Pattern `medicamento\s+(\w+)` at one position. -/
def med1At (l : Chars) : Option Chars :=
  match takeLit ("medicamento").data l with
  | some r =>
    match takeSpaces1 r with
    | some r2 => (takeWordRun r2).map (fun p => p.1)
    | none => none
  | none => none

/-- Pattern `pastilla\s+(?:de\s+)?(\w+)` at one position (greedy optional
`de\s+` with backtracking). -/
def med2At (l : Chars) : Option Chars :=
  match takeLit ("pastilla").data l with
  | some r =>
    match takeSpaces1 r with
    | some r2 =>
      (match takeLit ("de").data r2 with
       | some r3 =>
         match takeSpaces1 r3 with
         | some r4 => (takeWordRun r4).map (fun p => p.1)
         | none => none
       | none => none) <|> (takeWordRun r2).map (fun p => p.1)
    | none => none
  | none => none

/-- Pattern `tomar\s+(\w+)` at one position. -/
def med3At (l : Chars) : Option Chars :=
  match takeLit ("tomar").data l with
  | some r =>
    match takeSpaces1 r with
    | some r2 => (takeWordRun r2).map (fun p => p.1)
    | none => none
  | none => none

/-- Pattern `(\w+)\s+(?:mg|g|ml|cápsula|pastilla|comprimido)` at one
position. -/
def med4At (l : Chars) : Option Chars :=
  match takeWordRun l with
  | some (w, r) =>
    match takeSpaces1 r with
    | some r2 =>
      altFirst (fun _ _ => some w)
        ["mg", "g", "ml", "cápsula", "pastilla", "comprimido"] r2
    | none => none
  | none => none

/-- First common medication occurring in the text, capitalized. -/
def firstMed : List String → Chars → Option String
  | [], _ => none
  | m :: rest, l =>
    if subIn m l then some (pyCapitalizeS m) else firstMed rest l

/-- `_extract_medication` (lines 139–177) with `self.nlp = None`: the common
medication list first, then the regex fallbacks in order. -/
def extractMedication (l : Chars) : Option String :=
  firstMed commonMedications l <|>
  (searchL med1At l).map pyCapitalizeL <|>
  (searchL med2At l).map pyCapitalizeL <|>
  (searchL med3At l).map pyCapitalizeL <|>
  (searchL med4At l).map pyCapitalizeL

/-- The plural count-word list of `_extract_dosage` (line 192). -/
def dosageCountWords : List String :=
  ["comprimidos", "pastillas", "cápsulas", "tabletas", "píldoras"]

/-- Dosage formatting (lines 191–195): count words keep a space, mass/volume
units are concatenated. -/
def dosageFmt (d : Chars) (u : String) : String :=
  if dosageCountWords.contains u then String.mk d ++ " " ++ u
  else String.mk d ++ u

/-- Pattern `(\d+)\s*(mg|g|ml|mcg|µg|ui|iu|unidades)` at one position. -/
def dos1At (l : Chars) : Option (Chars × String) :=
  match takeDigitRun l with
  | some (d, r) =>
    altFirst (fun u _ => some (d, u))
      ["mg", "g", "ml", "mcg", "µg", "ui", "iu", "unidades"] (skipSpacesC r)
  | none => none

/-- Pattern `(\d+)\s*(comprimidos?|pastillas?|cápsulas?|tabletas?|píldoras?)`
at one position. -/
def dos2At (l : Chars) : Option (Chars × String) :=
  match takeDigitRun l with
  | some (d, r) =>
    (firstStemS ["comprimido", "pastilla", "cápsula", "tableta", "píldora"]
      (skipSpacesC r)).map (fun u => (d, u))
  | none => none

/-- Pattern `(\d+)\s*(mg|g|ml)\s*de\s*\w+` at one position. -/
def dos3At (l : Chars) : Option (Chars × String) :=
  match takeDigitRun l with
  | some (d, r) =>
    altFirst (fun u r2 =>
      match takeLit ("de").data (skipSpacesC r2) with
      | some r3 =>
        match skipSpacesC r3 with
        | c :: _ => if isWordChar c then some (d, u) else none
        | [] => none
      | none => none) ["mg", "g", "ml"] (skipSpacesC r)
  | none => none

/-- Pattern `dosis\s+de\s+(\d+)\s*(mg|g|ml)` at one position. -/
def dos4At (l : Chars) : Option (Chars × String) :=
  match takeLit ("dosis").data l with
  | some r =>
    match takeSpaces1 r with
    | some r2 =>
      match takeLit ("de").data r2 with
      | some r3 =>
        match takeSpaces1 r3 with
        | some r4 =>
          match takeDigitRun r4 with
          | some (d, r5) =>
            altFirst (fun u _ => some (d, u)) ["mg", "g", "ml"] (skipSpacesC r5)
          | none => none
        | none => none
      | none => none
    | none => none
  | none => none

/-- `_extract_dosage` (lines 179–197): the four patterns in order, the first
match formatted by `dosageFmt`. -/
def extractDosage (l : Chars) : Option String :=
  match searchL dos1At l with
  | some (d, u) => some (dosageFmt d u)
  | none =>
    match searchL dos2At l with
    | some (d, u) => some (dosageFmt d u)
    | none =>
      match searchL dos3At l with
      | some (d, u) => some (dosageFmt d u)
      | none =>
        match searchL dos4At l with
        | some (d, u) => some (dosageFmt d u)
        | none => none

/-- Pattern `cada\s+(\d+)\s+horas?` at one position (the value of the digit
group). -/
def cadaNAt (l : Chars) : Option Nat :=
  match takeLit ("cada").data l with
  | some r =>
    match takeSpaces1 r with
    | some r2 =>
      match takeDigitRun r2 with
      | some (d, r3) =>
        match takeSpaces1 r3 with
        | some r4 => (takeLit ("hora").data r4).map (fun _ => digitsVal d)
        | none => none
      | none => none
    | none => none
  | none => none

/-- `_extract_frequency` (lines 199–217): the ordered phrase table first, then
the `cada N horas` context rule, and the unconditional `"Diario"` default. -/
def extractFrequencyC (l : Chars) : String :=
  match firstSub frequencyMap l with
  | some v => v
  | none =>
    if subIn "cada" l && subIn "hora" l then
      match searchL cadaNAt l with
      | some hours =>
        if hours = 8 then "Cada 8 horas"
        else if hours = 12 then "Cada 12 horas"
        else if hours = 24 || hours = 1 then "Diario"
        else "Diario"
      | none => "Diario"
    else "Diario"

/-- `_extract_frequency` on a `String`. -/
def extractFrequency (text : String) : String := extractFrequencyC text.data

/-! ## `_extract_time` (lines 219–280) -/

/-- Pattern `(\d{1,2}):(\d{2})` at one position. -/
def t24At (l : Chars) : Option (Nat × Nat) :=
  take12D (fun h r =>
    match r with
    | ':' :: r2 => (take2D r2).map (fun p => (h, p.1))
    | _ => none) l

/-- The am/pm period alternatives, in the source's alternation order. -/
def ampmLits : List String :=
  ["am", "pm", "a.m.", "p.m.", "de la mañana", "de la tarde", "de la noche"]

/-- First period alternative matching at this position (the pattern ends
here, so only the matched literal is needed). -/
def firstAmpmLit : List String → Chars → Option String
  | [], _ => none
  | s :: rest, l =>
    if (takeLit s.data l).isSome then some s else firstAmpmLit rest l

/-- Tail of the am/pm pattern after the optional separator:
`\s*(\d{2})?\s*(period)`, with backtracking on the optional minute group. -/
def ampmMin (h : Nat) (r : Chars) : Option (Nat × Nat × String) :=
  let r2 := skipSpacesC r
  (match take2D r2 with
   | some (m, r3) =>
     (firstAmpmLit ampmLits (skipSpacesC r3)).map (fun per => (h, m, per))
   | none => none) <|>
  (firstAmpmLit ampmLits (skipSpacesC r2)).map (fun per => (h, 0, per))

/-- Pattern
`(\d{1,2})\s*(?:\.|:)?\s*(\d{2})?\s*(am|pm|a\.m\.|p\.m\.|de la mañana|de la tarde|de la noche)`
at one position, with greedy-then-backtrack behaviour on each optional
element.  The minute defaults to 0 (`int(match.group(2) or "0")`). -/
def ampmAt (l : Chars) : Option (Nat × Nat × String) :=
  take12D (fun h r =>
    let r1 := skipSpacesC r
    match r1 with
    | c :: cs =>
      if c = '.' || c = ':' then (ampmMin h cs) <|> (ampmMin h r1)
      else ampmMin h r1
    | [] => ampmMin h r1) l

/-- The 12h→24h conversion of lines 238–244, using Python's substring tests
on the matched period text. -/
def ampmAdjust (h : Nat) (per : String) : Nat :=
  if subIn "pm" per.data || subIn "tarde" per.data || subIn "noche" per.data then
    (if h < 12 then h + 12 else h)
  else if subIn "am" per.data || subIn "mañana" per.data then
    (if h = 12 then 0 else h)
  else h

/-- Pattern `(\d{1,2})\s+horas?` at one position. -/
def hourHorasAt (l : Chars) : Option Nat :=
  take12D (fun h r =>
    match takeSpaces1 r with
    | some r2 => (takeLit ("hora").data r2).map (fun _ => h)
    | none => none) l

/-- `time_expressions` (lines 257–274) in Python insertion order. -/
def timeExpressions : List (String × String) :=
  [("mediodía", "12:00"),
   ("medio día", "12:00"),
   ("medianoche", "00:00"),
   ("media noche", "00:00"),
   ("en la mañana", "08:00"),
   ("por la mañana", "08:00"),
   ("en la tarde", "14:00"),
   ("por la tarde", "14:00"),
   ("en la noche", "20:00"),
   ("por la noche", "20:00"),
   ("al despertar", "07:00"),
   ("después de desayunar", "08:30"),
   ("después de almorzar", "14:00"),
   ("después de comer", "14:00"),
   ("después de cenar", "20:00"),
   ("antes de dormir", "22:00")]

/-- Branch 4 of `_extract_time`: the named-instant table. -/
def timeB4 (l : Chars) : Option String := firstSub timeExpressions l

/-- Branch 3 of `_extract_time`: bare `<hour> horas`; an out-of-range hour
falls through to the expression table. -/
def timeB3 (l : Chars) : Option String :=
  match searchL hourHorasAt l with
  | some h => if h < 24 then some (fmtHM h 0) else timeB4 l
  | none => timeB4 l

/-- Branch 2 of `_extract_time`: the am/pm pattern; no range check is applied
here (the validator clears out-of-range results later). -/
def timeB2 (l : Chars) : Option String :=
  match searchL ampmAt l with
  | some (h, m, per) => some (fmtHM (ampmAdjust h per) m)
  | none => timeB3 l

/-- `_extract_time` (lines 219–280): 24h literal first (with range check and
fall-through), then am/pm, then bare hour, then named instants. -/
def extractTime (l : Chars) : Option String :=
  match searchL t24At l with
  | some (h, m) => if h < 24 && m < 60 then some (fmtHM h m) else timeB2 l
  | none => timeB2 l

/-! ## `_extract_quantity` and `_extract_duration` -/

/-- The unit alternation of quantity pattern 1:
`(caja|cajas|blister|blisters|frascos?|botellas?)` in order. -/
def qty1Unit (l : Chars) : Option String :=
  (firstAmpmLit ["caja", "cajas", "blister", "blisters"] l) <|>
  takeStemS "frasco" l <|> takeStemS "botella" l

/-- Pattern `(\d+)\s*(caja|cajas|blister|blisters|frascos?|botellas?)` at one
position. -/
def qty1At (l : Chars) : Option (Chars × String) :=
  match takeDigitRun l with
  | some (d, r) => (qty1Unit (skipSpacesC r)).map (fun u => (d, u))
  | none => none

/-- Pattern `(\d+)\s*(unidades|uds|u)` at one position. -/
def qty2At (l : Chars) : Option (Chars × String) :=
  match takeDigitRun l with
  | some (d, r) =>
    altFirst (fun u _ => some (d, u)) ["unidades", "uds", "u"] (skipSpacesC r)
  | none => none

/-- Pattern `para\s+(\d+)\s+(días|semanas|meses)` at one position. -/
def qty3At (l : Chars) : Option (Chars × String) :=
  match takeLit ("para").data l with
  | some r =>
    match takeSpaces1 r with
    | some r2 =>
      match takeDigitRun r2 with
      | some (d, r3) =>
        match takeSpaces1 r3 with
        | some r4 =>
          altFirst (fun u _ => some (d, u)) ["días", "semanas", "meses"] r4
        | none => none
      | none => none
    | none => none
  | none => none

/-- `_extract_quantity` (lines 282–295): three patterns in order, formatted
as `"<digits> <unit>"`. -/
def extractQuantity (l : Chars) : Option String :=
  match searchL qty1At l with
  | some (d, u) => some (String.mk d ++ " " ++ u)
  | none =>
    match searchL qty2At l with
    | some (d, u) => some (String.mk d ++ " " ++ u)
    | none =>
      match searchL qty3At l with
      | some (d, u) => some (String.mk d ++ " " ++ u)
      | none => none

/-- Pattern `por\s+(\d+)\s*(días|semanas|meses)` at one position. -/
def dur1At (l : Chars) : Option (Chars × String) :=
  match takeLit ("por").data l with
  | some r =>
    match takeSpaces1 r with
    | some r2 =>
      match takeDigitRun r2 with
      | some (d, r3) =>
        altFirst (fun u _ => some (d, u)) ["días", "semanas", "meses"]
          (skipSpacesC r3)
      | none => none
    | none => none
  | none => none

/-- Pattern `durante\s+(\d+)\s*(días|semanas|meses)` at one position. -/
def dur2At (l : Chars) : Option (Chars × String) :=
  match takeLit ("durante").data l with
  | some r =>
    match takeSpaces1 r with
    | some r2 =>
      match takeDigitRun r2 with
      | some (d, r3) =>
        altFirst (fun u _ => some (d, u)) ["días", "semanas", "meses"]
          (skipSpacesC r3)
      | none => none
    | none => none
  | none => none

/-- Pattern `(\d+)\s*(días|semanas|meses)\s+de\s+tratamiento` at one
position. -/
def dur3At (l : Chars) : Option (Chars × String) :=
  match takeDigitRun l with
  | some (d, r) =>
    altFirst (fun u r2 =>
      match takeSpaces1 r2 with
      | some r3 =>
        match takeLit ("de").data r3 with
        | some r4 =>
          match takeSpaces1 r4 with
          | some r5 => (takeLit ("tratamiento").data r5).map (fun _ => (d, u))
          | none => none
        | none => none
      | none => none) ["días", "semanas", "meses"] (skipSpacesC r)
  | none => none

/-- Pattern `hasta\s+el\s+(\d{1,2}/\d{1,2}/\d{4})` at one position; the
capture is the matched date text. -/
def dur4At (l : Chars) : Option Chars :=
  match takeLit ("hasta").data l with
  | some r =>
    match takeSpaces1 r with
    | some r2 =>
      match takeLit ("el").data r2 with
      | some r3 =>
        match takeSpaces1 r3 with
        | some r4 =>
          take12DC (fun d1 r5 =>
            match r5 with
            | '/' :: r6 =>
              take12DC (fun d2 r7 =>
                match r7 with
                | '/' :: r8 =>
                  match r8 with
                  | a :: b :: c :: d :: _ =>
                    if a.isDigit && b.isDigit && c.isDigit && d.isDigit then
                      some (d1 ++ '/' :: d2 ++ '/' :: [a, b, c, d])
                    else none
                  | _ => none
                | _ => none) r6
            | _ => none) r4
        | none => none
      | none => none
    | none => none
  | none => none

/-- `_extract_duration` (lines 297–314): four patterns in order; the
two-group patterns format as `"<digits> <unit>"`, the date pattern returns
the matched date. -/
def extractDuration (l : Chars) : Option String :=
  match searchL dur1At l with
  | some (d, u) => some (String.mk d ++ " " ++ u)
  | none =>
    match searchL dur2At l with
    | some (d, u) => some (String.mk d ++ " " ++ u)
    | none =>
      match searchL dur3At l with
      | some (d, u) => some (String.mk d ++ " " ++ u)
      | none =>
        match searchL dur4At l with
        | some d => some (String.mk d)
        | none => none

/-! ## The result record, scorer, validator and orchestrator -/

/-- The `info` dict built by `extract_info` (lines 83–93).  Each key of the
source dict is a field; `none` models both the value `None` and an absent
key.  `confidence` is exact rational arithmetic in place of floats; `error`
is the extra key of the fault record of `extract_medication_info`. -/
structure MedInfo where
  action : Option String
  medication : Option String
  dosage : Option String
  frequency : Option String
  time : Option String
  quantity : Option String
  duration : Option String
  confidence : ℚ
  rawText : Option String
  error : Option String
deriving DecidableEq, Repr

/-- Python's binary `min` on rationals (kernel-computable order select). -/
def ratMin (a b : ℚ) : ℚ := if a ≤ b then a else b

/-- Python's binary `max` on rationals (kernel-computable order select). -/
def ratMax (a b : ℚ) : ℚ := if a ≤ b then b else a

/-- Python truthiness of an optional string (`if info["time"]:`): present and
non-empty. -/
def truthyS (o : Option String) : Bool :=
  match o with
  | none => false
  | some s => !(s == "")

/-- `_calculate_confidence` (lines 316–338): sequential penalties, bonuses,
then the clamp `max(0.0, min(1.0, confidence))`. -/
def calculateConfidence (info : MedInfo) : ℚ :=
  let c0 : ℚ := 1
  let c1 := if info.action.isNone then c0 * (7 / 10) else c0
  let c2 :=
    if info.action == some "add_medication" && info.medication.isNone then
      c1 * (6 / 10)
    else c1
  let c3 :=
    if info.action == some "add_medication" && info.dosage.isNone then
      c2 * (8 / 10)
    else c2
  let c4 := if truthyS info.medication && truthyS info.dosage then c3 * (12 / 10) else c3
  let c5 := if truthyS info.time then c4 * (11 / 10) else c4
  ratMax 0 (ratMin 1 c5)

/-- The time check of `validate_medication_info` (lines 345–351):
`hour, minute = map(int, t.split(":"))` with any failure (wrong number of
parts or unparsable part) caught by the bare `except`, and the range check
clearing the field. -/
def validateTimeStr (s : String) : Option String :=
  match splitOnChar ':' s.data with
  | [a, b] =>
    match pyIntL a, pyIntL b with
    | some h, some m =>
      if 0 ≤ h ∧ h < 24 ∧ 0 ≤ m ∧ m < 60 then some s else none
    | _, _ => none
  | _ => none

/-- `dosage.replace(" ", "")` (line 356). -/
def removeSpaces (s : String) : String := ⟨s.data.filter (fun c => c ≠ ' ')⟩

/-- `validate_medication_info` (lines 340–358): validates the time field
(guarded by Python truthiness) and strips spaces from the dosage. -/
def validateMedicationInfo (info : MedInfo) : MedInfo :=
  let t :=
    match info.time with
    | some s => if s == "" then some s else validateTimeStr s
    | none => none
  let d :=
    match info.dosage with
    | some s => if s == "" then some s else some (removeSpaces s)
    | none => none
  { info with time := t, dosage := d }

/-- The `info` dict of `MedicationParser.extract_info` (lines 83–115) right
before the confidence step: normalize (`text.lower().strip()`), then run
every slot extractor on the same normalized text.  `raw_text` keeps the
original input and `confidence` still holds its initial value 1.0. -/
def extractInfoBase (text : String) : MedInfo :=
  let tl := pyStrip (pyLower text.data)
  { action := detectAction tl
    medication := extractMedication tl
    dosage := extractDosage tl
    frequency := some (extractFrequencyC tl)
    time := extractTime tl
    quantity := extractQuantity tl
    duration := extractDuration tl
    confidence := 1
    rawText := some text
    error := none }

/-- `MedicationParser.extract_info` (lines 78–120): the extracted record with
its confidence computed from the populated slots. -/
def extractInfo (text : String) : MedInfo :=
  { extractInfoBase text with
      confidence := calculateConfidence (extractInfoBase text) }

/-- The normal path of the module-level `extract_medication_info`
(lines 392–397): extraction followed by validation. -/
def extractMedicationInfo (text : String) : MedInfo :=
  validateMedicationInfo (extractInfo text)

/-- The fault path of `extract_medication_info` (lines 398–408): the record
literally returned by the `except` branch.  The dict there has only the keys
`action`, `medication`, `dosage`, `frequency`, `time`, `confidence` and
`error`; in particular it has no `raw_text`, `quantity` or `duration` key
(modelled as `none`). -/
def medFaultRecord (e : String) : MedInfo :=
  { action := none
    medication := none
    dosage := none
    frequency := none
    time := none
    quantity := none
    duration := none
    confidence := 0
    rawText := none
    error := some e }

/-! ## `CommandVariationGenerator` (`src/nlp/command_variation_generator.py`)

The generator's regexes run with `re.IGNORECASE` on the raw command, so the
matchers below compare characters through `pyLowerChar` while captures keep
the original text.  `template.format(...)` on the seven named placeholders is
modelled by decomposing each template string into literal/slot pieces. -/

/-- Case-insensitive literal match, returning the consumed original input and
the rest. -/
def takeLitCI : Chars → Chars → Option (Chars × Chars)
  | [], l => some ([], l)
  | _ :: _, [] => none
  | p :: ps, c :: cs =>
    if pyLowerChar c = p then
      (takeLitCI ps cs).map (fun r => (c :: r.1, r.2))
    else none

/-- Ordered case-insensitive alternation with continuation; the capture is
the original matched text. -/
def altFirstCI {α : Type} (k : Chars → Chars → Option α) :
    List String → Chars → Option α
  | [], _ => none
  | s :: rest, l =>
    (match takeLitCI s.data l with
     | some (w, r) => k w r
     | none => none) <|> altFirstCI k rest l

/-- `self.templates` (lines 12–23), with each format string decomposed into
its literal pieces around the seven placeholders
`{starter} {action} {medication} {dosage} {time} {frequency} {duration}`. -/
def fmtTemplate0 (st a m d t f du : String) : String :=
  st ++ " " ++ a ++ " " ++ m ++ " de " ++ d ++ " " ++ t ++ " con frecuencia " ++ f ++ " " ++ du

/-- Template 2: `{starter} {action} {medication} {dosage} {time} cada {frequency} {duration}`. -/
def fmtTemplate1 (st a m d t f du : String) : String :=
  st ++ " " ++ a ++ " " ++ m ++ " " ++ d ++ " " ++ t ++ " cada " ++ f ++ " " ++ du

/-- Template 3: `{starter} {action} {dosage} de {medication} {time} tomando {frequency} {duration}`. -/
def fmtTemplate2 (st a m d t f du : String) : String :=
  st ++ " " ++ a ++ " " ++ d ++ " de " ++ m ++ " " ++ t ++ " tomando " ++ f ++ " " ++ du

/-- Template 4: `{starter} {action} el {medication} de {dosage} {time} {frequency} {duration}`. -/
def fmtTemplate3 (st a m d t f du : String) : String :=
  st ++ " " ++ a ++ " el " ++ m ++ " de " ++ d ++ " " ++ t ++ " " ++ f ++ " " ++ du

/-- Template 5: `{starter} {action} {medication} con dosis de {dosage} {time} {frequency} por {duration}`. -/
def fmtTemplate4 (st a m d t f du : String) : String :=
  st ++ " " ++ a ++ " " ++ m ++ " con dosis de " ++ d ++ " " ++ t ++ " " ++ f ++ " por " ++ du

/-- Template 6: `{starter} {action} tomar {medication} {dosage} {time} {frequency} {duration}`. -/
def fmtTemplate5 (st a m d t f du : String) : String :=
  st ++ " " ++ a ++ " tomar " ++ m ++ " " ++ d ++ " " ++ t ++ " " ++ f ++ " " ++ du

/-- Template 7: `{starter} por favor {action} {medication} {dosage} {time} {frequency} {duration}`. -/
def fmtTemplate6 (st a m d t f du : String) : String :=
  st ++ " por favor " ++ a ++ " " ++ m ++ " " ++ d ++ " " ++ t ++ " " ++ f ++ " " ++ du

/-- Template 8: `{starter} quiero {action} {medication} {dosage} {time} {frequency} {duration}`. -/
def fmtTemplate7 (st a m d t f du : String) : String :=
  st ++ " quiero " ++ a ++ " " ++ m ++ " " ++ d ++ " " ++ t ++ " " ++ f ++ " " ++ du

/-- Template 9: `{starter} necesito {action} {medication} {dosage} {time} {frequency} {duration}`. -/
def fmtTemplate8 (st a m d t f du : String) : String :=
  st ++ " necesito " ++ a ++ " " ++ m ++ " " ++ d ++ " " ++ t ++ " " ++ f ++ " " ++ du

/-- The template list in source order. -/
def genTemplates : List (String → String → String → String → String → String → String → String) :=
  [fmtTemplate0, fmtTemplate1, fmtTemplate2, fmtTemplate3, fmtTemplate4,
   fmtTemplate5, fmtTemplate6, fmtTemplate7, fmtTemplate8]

/-- The `components` dict of `_parse_base_command`; an unset key is `none`. -/
structure GenComponents where
  starter : Option String
  medication : Option String
  action : Option String
  dosage : Option String
  time : Option String
  frequency : Option String
  duration : Option String
deriving DecidableEq, Repr

/-- Python truthiness of the `components` dict: empty iff no key was set. -/
def GenComponents.isEmptyDict (c : GenComponents) : Bool :=
  c.starter.isNone && c.medication.isNone && c.action.isNone &&
  c.dosage.isNone && c.time.isNone && c.frequency.isNone && c.duration.isNone

/-- `components.get(key, "")`. -/
def compGet (o : Option String) : String := o.getD ""

/-- `_get_starter_variations` (lines 136–141). -/
def starterVariations : List String :=
  ["Mi Dosis", "Dosis", "Asistente", "Hey Dosis", "Hola Dosis",
   "OK Dosis", "Oye Dosis", "Asistente médico", "Asistente de medicamentos",
   "Medicación", "Recuérdame", "Por favor"]

/-- `command.lower().startswith(starter.lower())` (line 86). -/
def startsWithCI (pre : String) (cmd : Chars) : Bool :=
  (takeLit (pyLower pre.data) (pyLower cmd)).isSome

/-- The starter loop of `_parse_base_command` (lines 84–88): the first
starter the command starts with (case-insensitively). -/
def findStarter : List String → Chars → Option String
  | [], _ => none
  | s :: rest, cmd =>
    if startsWithCI s cmd then some s else findStarter rest cmd

/-- Action pattern 1 of `_parse_base_command`:
`(?:agregar|añadir|poner|programar|registrar|necesitar|querer)`; the capture
is `match.group(0)`, the matched text. -/
def genAct1At (l : Chars) : Option Chars :=
  altFirstCI (fun w _ => some w)
    ["agregar", "añadir", "poner", "programar", "registrar", "necesitar", "querer"] l

/-- Action pattern 2: `agrégame|añádeme|ponme|programame|registrame`. -/
def genAct2At (l : Chars) : Option Chars :=
  altFirstCI (fun w _ => some w)
    ["agrégame", "añádeme", "ponme", "programame", "registrame"] l

/-- Pattern `(?:agregar|añadir|poner|tomar)\s+(?:el\s+)?(\w+)` at one
position (medication extraction, line 103). -/
def genMedAt (l : Chars) : Option Chars :=
  altFirstCI (fun _ r =>
    match takeSpaces1 r with
    | some r2 =>
      (match takeLitCI ("el").data r2 with
       | some (_, r3) =>
         match takeSpaces1 r3 with
         | some r4 => (takeWordRun r4).map (fun p => p.1)
         | none => none
       | none => none) <|> (takeWordRun r2).map (fun p => p.1)
    | none => none) ["agregar", "añadir", "poner", "tomar"] l

/-- Pattern `(\d+)\s*(mg|g|ml|tableta)` at one position (dosage, line 109);
the component is `"<digits> <unit>"` with the unit as matched. -/
def genDosAt (l : Chars) : Option String :=
  match takeDigitRun l with
  | some (d, r) =>
    altFirstCI (fun u _ => some (String.mk d ++ " " ++ String.mk u))
      ["mg", "g", "ml", "tableta"] (skipSpacesC r)
  | none => none

/-- Pattern `a las (\d{1,2})(?::\d{2})?\s*(?:de la\s+)?(mañana|tarde|noche|am|pm)?`
at one position (time, line 115); returns the hour text and the optional
period text. -/
def genTimeAt (l : Chars) : Option (Chars × Option Chars) :=
  match takeLitCI ("a las ").data l with
  | some (_, r) =>
    take12DC (fun h r2 =>
      let afterMin :=
        match r2 with
        | ':' :: r3 =>
          match take2DC r3 with
          | some (_, r4) => r4
          | none => r2
        | _ => r2
      let base := skipSpacesC afterMin
      let tryPeriod : Chars → Option (Chars × Option Chars) := fun pos =>
        altFirstCI (fun w _ => some (h, some w))
          ["mañana", "tarde", "noche", "am", "pm"] pos
      (match takeLitCI ("de la").data base with
       | some (_, r5) =>
         match takeSpaces1 r5 with
         | some r6 => tryPeriod r6
         | none => none
       | none => none) <|> tryPeriod base <|> some (h, none)) r
  | none => none

/-- Component text built from the time match (lines 117–120):
`f"a las {hour}{' ' + period if period else ''}"`. -/
def genTimeComp (h : Chars) (per : Option Chars) : String :=
  match per with
  | some p => "a las " ++ String.mk h ++ " " ++ String.mk p
  | none => "a las " ++ String.mk h

/-- Pattern `cada\s+(\d+\s*(?:horas|días))` at one position (frequency,
line 123); the capture keeps the matched inner text. -/
def genFreqAt (l : Chars) : Option String :=
  match takeLitCI ("cada").data l with
  | some (_, r) =>
    match takeSpaces1 r with
    | some r2 =>
      match takeDigitRun r2 with
      | some (d, r3) =>
        let sp := r3.takeWhile isSpaceC
        altFirstCI (fun u _ => some ("cada " ++ String.mk (d ++ sp ++ u)))
          ["horas", "días"] (skipSpacesC r3)
      | none => none
    | none => none
  | none => none

/-- Pattern `por\s+(\d+\s*(?:días|semanas|meses))` at one position (duration,
line 129). -/
def genDurAt (l : Chars) : Option String :=
  match takeLitCI ("por").data l with
  | some (_, r) =>
    match takeSpaces1 r with
    | some r2 =>
      match takeDigitRun r2 with
      | some (d, r3) =>
        let sp := r3.takeWhile isSpaceC
        altFirstCI (fun u _ => some ("por " ++ String.mk (d ++ sp ++ u)))
          ["días", "semanas", "meses"] (skipSpacesC r3)
      | none => none
    | none => none
  | none => none

/-- `_parse_base_command` (lines 79–134). -/
def parseBaseCommand (cmd : String) : GenComponents :=
  let l := cmd.data
  { starter := findStarter starterVariations l
    medication := (searchL genMedAt l).map String.mk
    action := ((searchL genAct1At l) <|> (searchL genAct2At l)).map String.mk
    dosage := searchL genDosAt l
    time := (searchL genTimeAt l).map (fun p => genTimeComp p.1 p.2)
    frequency := searchL genFreqAt l
    duration := searchL genDurAt l }

/-- `_get_action_variations` (lines 143–163): the two-key synonym map, with
the fallback `[base_action, "agrégame", "añádeme", "ponme"]`. -/
def getActionVariations (base : String) : List String :=
  if subIn "agregar" (pyLower base.data) then
    ["agrégame", "añádeme", "ponme", "programame", "registrame",
     "creame", "iníciame", "comiénzame", "empézame", "necesito agregar",
     "quiero agregar", "requiero agregar", "preciso agregar", "deseo agregar",
     "recétame", "prescríbeme", "indícame", "configurame", "estableceme"]
  else if subIn "añadir" (pyLower base.data) then
    ["añádeme", "agrégame", "suma", "incluye", "incorpora",
     "agrega", "añade", "pon", "agregar", "poner"]
  else [base, "agrégame", "añádeme", "ponme"]

/-- `_get_medication_variations` (lines 165–197). -/
def getMedicationVariations (base : String) : List String :=
  let bl := pyLower base.data
  if subIn "paracetamol" bl then
    ["paracetamol", "acetaminofén", "tylenol", "dolofin", "panadol",
     "el paracetamol", "paracetamol de 500", "paracetamol genérico"]
  else if subIn "ibuprofeno" bl then
    ["ibuprofeno", "advil", "motrin", "ibu", "ibuprofeno de 400",
     "el ibuprofeno", "ibuprofeno genérico"]
  else if subIn "omeprazol" bl then
    ["omeprazol", "prilosec", "losec", "omez", "omeprazol de 20",
     "el omeprazol", "cápsula de omeprazol"]
  else if subIn "aspirina" bl then
    ["aspirina", "ácido acetilsalicílico", "aspirina de 100",
     "la aspirina", "aspirina infantil"]
  else if subIn "amoxicilina" bl then
    ["amoxicilina", "amoxicilina de 500", "antibiótico",
     "la amoxicilina", "amoxicilina cápsulas"]
  else [base]

/-- `_get_dosage_variations` (lines 199–211): `re.match` (anchored) of
`(\d+)\s*(mg|g|ml|tableta|tabletas|cápsula|cápsulas)`. -/
def getDosageVariations (base : String) : List String :=
  match (fun l =>
    match takeDigitRun l with
    | some (d, r) =>
      altFirstCI (fun u _ => some (d, u))
        ["mg", "g", "ml", "tableta", "tabletas", "cápsula", "cápsulas"]
        (skipSpacesC r)
    | none => none) base.data with
  | some (d, u) =>
    let v := String.mk d
    let us := String.mk u
    [v ++ " " ++ us, "de " ++ v ++ " " ++ us, "dosis de " ++ v ++ " " ++ us,
     v ++ us,
     if pyLower u = ("mg").data then v ++ " miligramos" else base]
  | none => [base]

/-- `list(set(xs))`: the distinct elements in an order Python leaves
unspecified (hash order); modelled with `List.dedup`.  No theorem below
depends on the order, only on boundedness and membership. -/
def pySetList (xs : List String) : List String := xs.dedup

/-- Pattern `a las (\d{1,2})(?:\s*(?:de la\s+)?(mañana|tarde|noche|am|pm))?`
at one position (the variant used by `_get_time_variations`, line 215: no
minute part, and the whole period tail is one optional group). -/
def genTime2At (l : Chars) : Option (Chars × Option Chars) :=
  match takeLitCI ("a las ").data l with
  | some (_, r) =>
    take12DC (fun h r2 =>
      let base := skipSpacesC r2
      let tryPeriod : Chars → Option (Chars × Option Chars) := fun pos =>
        altFirstCI (fun w _ => some (h, some w))
          ["mañana", "tarde", "noche", "am", "pm"] pos
      (match takeLitCI ("de la").data base with
       | some (_, r5) =>
         match takeSpaces1 r5 with
         | some r6 => tryPeriod r6
         | none => none
       | none => none) <|> tryPeriod base <|> some (h, none)) r
  | none => none

/-- `_get_time_variations` (lines 213–261). -/
def getTimeVariations (base : String) : List String :=
  match searchL genTime2At base.data with
  | none => [base]
  | some (h, perOpt) =>
    let hs := String.mk h
    let per := pyLower ((perOpt.getD []).map id)
    let withPeriod :=
      match perOpt with
      | none => []
      | some _ =>
        if subIn "mañana" per || subIn "am" per then
          ["a las " ++ hs ++ " de la mañana", "a las " ++ hs ++ " am",
           "en la mañana a las " ++ hs, "por la mañana a las " ++ hs,
           "a las " ++ hs ++ " en la mañana"]
        else if subIn "tarde" per then
          ["a las " ++ hs ++ " de la tarde", "a las " ++ hs ++ " pm",
           "en la tarde a las " ++ hs, "por la tarde a las " ++ hs,
           "a las " ++ hs ++ " en la tarde"]
        else if subIn "noche" per || subIn "pm" per then
          ["a las " ++ hs ++ " de la noche", "a las " ++ hs ++ " pm",
           "en la noche a las " ++ hs, "por la noche a las " ++ hs,
           "a las " ++ hs ++ " en la noche"]
        else []
    pySetList (withPeriod ++
      ["a las " ++ hs, "a las " ++ hs ++ ":00", "a la hora " ++ hs,
       "a las " ++ hs ++ " horas"])

/-- The inner match of `_get_frequency_variations`:
`cada\s+(\d+)\s*(horas|días)` with value and unit groups. -/
def genFreqValUnit (l : Chars) : Option (Chars × Chars) :=
  match takeLitCI ("cada").data l with
  | some (_, r) =>
    match takeSpaces1 r with
    | some r2 =>
      match takeDigitRun r2 with
      | some (d, r3) =>
        altFirstCI (fun u _ => some (d, u)) ["horas", "días"] (skipSpacesC r3)
      | none => none
    | none => none
  | none => none

/-- `_get_frequency_variations` (lines 263–319): the value group is compared
as text (`value == "8"`), the unit by substring. -/
def getFrequencyVariations (base : String) : List String :=
  match searchL genFreqValUnit base.data with
  | none => [base]
  | some (d, u) =>
    let ul := pyLower u
    let fv :=
      if subIn "hora" ul then
        if d = ("8").data then
          ["cada 8 horas", "cada ocho horas", "tres veces al día",
           "cada 8 hrs", "cada ocho hrs", "cada 8h"]
        else if d = ("12").data then
          ["cada 12 horas", "cada doce horas", "dos veces al día",
           "cada 12 hrs", "cada doce hrs", "cada 12h"]
        else if d = ("24").data then
          ["cada 24 horas", "diario", "una vez al día", "todos los días",
           "cada día"]
        else []
      else if subIn "día" ul then
        if d = ("1").data then
          ["diario", "todos los días", "una vez al día", "cada día",
           "diariamente"]
        else if d = ("7").data then
          ["semanal", "una vez por semana", "cada semana", "semanalmente"]
        else []
      else []
    if fv.isEmpty then [base] else pySetList fv

/-- `_get_duration_variations` (lines 321–345): `re.match` (anchored) of
`por\s+(\d+)\s*(días|día|semanas|semana|meses|mes)`;
`unit.rstrip('s')` strips every trailing `s`. -/
def getDurationVariations (base : String) : List String :=
  match (fun l =>
    match takeLitCI ("por").data l with
    | some (_, r) =>
      match takeSpaces1 r with
      | some r2 =>
        match takeDigitRun r2 with
        | some (d, r3) =>
          altFirstCI (fun u _ => some (d, u))
            ["días", "día", "semanas", "semana", "meses", "mes"]
            (skipSpacesC r3)
        | none => none
      | none => none
    | none => none) base.data with
  | none => [base]
  | some (d, u) =>
    let v := String.mk d
    let us := String.mk u
    let uSing := String.mk (u.reverse.dropWhile (fun c => c = 's')).reverse
    let endsS := match u.reverse with
      | 's' :: _ => true
      | _ => false
    ["por " ++ v ++ " " ++ us, "durante " ++ v ++ " " ++ us,
     "para " ++ v ++ " " ++ us, "por un período de " ++ v ++ " " ++ us,
     "por " ++ v ++ " " ++ us ++ " seguidos"] ++
    (if endsS then ["por " ++ v ++ " " ++ uSing] else ["por " ++ v ++ " " ++ us ++ "s"])

/-- `generate_variations` (lines 25–77).  The nested loops append one
formatted variation per slot combination in lexicographic loop order
(template outermost, duration innermost); once `variation_count` reaches 50
the innermost `break` prevents every further append, so the result is the
first 50 combinations.  Modelled as the full nested product truncated to 50
elements. -/
def generateVariations (baseCommand : String) : List String :=
  let components := parseBaseCommand baseCommand
  if components.isEmptyDict then []
  else
    let sv := starterVariations
    let av := getActionVariations (compGet components.action)
    let mv := getMedicationVariations (compGet components.medication)
    let dv := getDosageVariations (compGet components.dosage)
    let tv := getTimeVariations (compGet components.time)
    let fv := getFrequencyVariations (compGet components.frequency)
    let duv := getDurationVariations (compGet components.duration)
    (((genTemplates.take 3).flatMap fun t =>
      (sv.take 3).flatMap fun st =>
      (av.take 3).flatMap fun a =>
      (mv.take 2).flatMap fun m =>
      (dv.take 2).flatMap fun d =>
      (tv.take 2).flatMap fun ti =>
      (fv.take 2).flatMap fun f =>
      (duv.take 2).map fun du => t st a m d ti f du).take 50)

/-! ## Spec-side abstraction (ParsedCommand, spec §3)

The spec's `ParsedCommand` record describes the implementation's
string-valued fields through a small abstract vocabulary (an action enum, a
frequency enum, integer duration days, numeric dosage).  The definitions
below are that abstraction map, written from the spec's words; they let the
claims be stated in the spec's vocabulary while the computations above stay
the source's. -/

/-- The spec's closed action enum (spec §3). -/
inductive SpecAction where
  | addMedication
  | deleteMedication
  | listMedications
  | setReminder
  | checkMedication
  | checkToday
  | checkTomorrow
  | checkYesterday
  | unknown
deriving DecidableEq, Repr

/-- Modelled from the spec: §3 `action` — the abstraction of the
implementation's action strings (`None` is `Unknown`). -/
def specActionOf (a : Option String) : SpecAction :=
  match a with
  | some "add_medication" => .addMedication
  | some "delete_medication" => .deleteMedication
  | some "list_medications" => .listMedications
  | some "set_reminder" => .setReminder
  | some "check_medication" => .checkMedication
  | some "check_today" => .checkToday
  | some "check_tomorrow" => .checkTomorrow
  | some "check_yesterday" => .checkYesterday
  | _ => .unknown

/-- The spec's canonical frequency enum (spec §3). -/
inductive SpecFrequency where
  | everyNHours (n : Nat)
  | daily
  | weekly
  | asNeeded
deriving DecidableEq, Repr

/-- Modelled from the spec: §3/§4.2 `frequency` — the abstraction of the
implementation's canonical frequency strings into the enum. -/
def specFrequencyOf (f : Option String) : Option SpecFrequency :=
  match f with
  | some "Diario" => some .daily
  | some "Cada 8 horas" => some (.everyNHours 8)
  | some "Cada 12 horas" => some (.everyNHours 12)
  | some "Semanal" => some .weekly
  | some "Cuando sea necesario" => some .asNeeded
  | _ => none

/-- Modelled from the spec: §3/§4.2 `durationDays` — the integer number of
days of a duration string `"<n> días|semanas|meses"`, using week = 7 days and
month = 30 days. -/
def specDurationDays (d : Option String) : Option Nat :=
  match d with
  | none => none
  | some s =>
    match takeDigitRun s.data with
    | none => none
    | some (ds, r) =>
      match r with
      | ' ' :: u =>
        if u = ("días").data then some (digitsVal ds)
        else if u = ("semanas").data then some (7 * digitsVal ds)
        else if u = ("meses").data then some (30 * digitsVal ds)
        else none
      | _ => none

/-- Modelled from the spec: §3 `dosageAmount` — the numeric amount of a
dosage string (its leading digits). -/
def specDosageAmount (d : Option String) : Option Nat :=
  match d with
  | none => none
  | some s => (takeDigitRun s.data).map (fun p => digitsVal p.1)

/-- Modelled from the spec: §3 `dosageUnit` — the unit of a dosage string
(what follows the leading digits, with separating space stripped). -/
def specDosageUnit (d : Option String) : Option String :=
  match d with
  | none => none
  | some s => (takeDigitRun s.data).map (fun p => String.mk (skipSpacesC p.2))


/-! ## Infrastructure lemmas: digit strings and the time round-trip -/

/-- The ten decimal digit characters. -/
def digitCharsList : Chars :=
  ['0', '1', '2', '3', '4', '5', '6', '7', '8', '9']

theorem digitChar_mem (d : Nat) : digitChar d ∈ digitCharsList := by
  unfold digitChar
  split <;> decide

theorem digitVal_digitChar (d : Nat) (h : d < 10) :
    digitVal (digitChar d) = d := by
  interval_cases d <;> decide

theorem natCharsFuel_mem (f : Nat) :
    ∀ n, n < f → ∀ c ∈ natCharsFuel f n, c ∈ digitCharsList := by
  induction f with
  | zero => intro n hn; omega
  | succ f ih =>
    intro n _ c hc
    unfold natCharsFuel at hc
    by_cases h10 : n < 10
    · simp only [if_pos h10, List.mem_singleton] at hc
      subst hc; exact digitChar_mem n
    · simp only [if_neg h10, List.mem_append, List.mem_singleton] at hc
      rcases hc with hc | hc
      · have hdiv : n / 10 < f := by
          have := Nat.div_lt_self (by omega : 0 < n) (by omega : 1 < 10)
          omega
        exact ih (n / 10) hdiv c hc
      · subst hc; exact digitChar_mem (n % 10)

theorem digitsVal_append_single (l : Chars) (c : Char) :
    digitsVal (l ++ [c]) = 10 * digitsVal l + digitVal c := by
  simp [digitsVal, List.foldl_append]

theorem natCharsFuel_val (f : Nat) :
    ∀ n, n < f → digitsVal (natCharsFuel f n) = n := by
  induction f with
  | zero => intro n hn; omega
  | succ f ih =>
    intro n hn
    unfold natCharsFuel
    by_cases h10 : n < 10
    · simp only [if_pos h10]
      simp [digitsVal, digitVal_digitChar n h10]
    · have hdiv : n / 10 < f := by
        have := Nat.div_lt_self (by omega : 0 < n) (by omega : 1 < 10)
        omega
      simp only [if_neg h10, digitsVal_append_single, ih (n / 10) hdiv,
        digitVal_digitChar (n % 10) (Nat.mod_lt n (by omega))]
      omega

theorem natChars_val (n : Nat) : digitsVal (natChars n) = n :=
  natCharsFuel_val (n + 1) n (by omega)

theorem natChars_mem (n : Nat) : ∀ c ∈ natChars n, c ∈ digitCharsList :=
  natCharsFuel_mem (n + 1) n (by omega)

theorem fmt02c_mem (n : Nat) : ∀ c ∈ fmt02c n, c ∈ digitCharsList := by
  intro c hc
  unfold fmt02c at hc
  by_cases h10 : n < 10
  · simp only [if_pos h10, List.mem_cons] at hc
    rcases hc with hc | hc
    · subst hc; decide
    · exact natChars_mem n c hc
  · simp only [if_neg h10] at hc
    exact natChars_mem n c hc

theorem digitsVal_fmt02c (n : Nat) : digitsVal (fmt02c n) = n := by
  unfold fmt02c
  by_cases h10 : n < 10
  · simp only [if_pos h10]
    have h0 : digitsVal ('0' :: natChars n) = digitsVal (natChars n) := by
      simp [digitsVal, digitVal]
    rw [h0, natChars_val]
  · simp only [if_neg h10, natChars_val]

theorem digit_not_space (c : Char) (h : c ∈ digitCharsList) :
    isSpaceC c = false := by
  simp only [digitCharsList, List.mem_cons, List.not_mem_nil, or_false] at h
  rcases h with h | h | h | h | h | h | h | h | h | h <;> subst h <;> decide

theorem digit_ne_colon (c : Char) (h : c ∈ digitCharsList) : c ≠ ':' := by
  simp only [digitCharsList, List.mem_cons, List.not_mem_nil, or_false] at h
  rcases h with h | h | h | h | h | h | h | h | h | h <;> subst h <;> decide

theorem digit_ne_plus (c : Char) (h : c ∈ digitCharsList) : c ≠ '+' := by
  simp only [digitCharsList, List.mem_cons, List.not_mem_nil, or_false] at h
  rcases h with h | h | h | h | h | h | h | h | h | h <;> subst h <;> decide

theorem digit_ne_minus (c : Char) (h : c ∈ digitCharsList) : c ≠ '-' := by
  simp only [digitCharsList, List.mem_cons, List.not_mem_nil, or_false] at h
  rcases h with h | h | h | h | h | h | h | h | h | h <;> subst h <;> decide

theorem digit_isDigit (c : Char) (h : c ∈ digitCharsList) :
    c.isDigit = true := by
  simp only [digitCharsList, List.mem_cons, List.not_mem_nil, or_false] at h
  rcases h with h | h | h | h | h | h | h | h | h | h <;> subst h <;> decide

theorem dropWhile_eq_self_of_false {p : Char → Bool} (l : Chars)
    (h : ∀ c ∈ l, p c = false) : l.dropWhile p = l := by
  cases l with
  | nil => rfl
  | cons c cs =>
    rw [List.dropWhile_cons, h c (List.mem_cons_self c cs)]
    simp

theorem trimC_eq_self_of_digits (l : Chars)
    (h : ∀ c ∈ l, c ∈ digitCharsList) : trimC l = l := by
  unfold trimC
  rw [dropWhile_eq_self_of_false l (fun c hc => digit_not_space c (h c hc)),
    dropWhile_eq_self_of_false l.reverse
      (fun c hc => digit_not_space c (h c (List.mem_reverse.mp hc))),
    List.reverse_reverse]

theorem natPart_of_digits (l : Chars) (hne : l ≠ [])
    (h : ∀ c ∈ l, c ∈ digitCharsList) : natPart l = some (digitsVal l) := by
  unfold natPart
  rw [if_pos ⟨hne, fun c hc => digit_isDigit c (h c hc)⟩]

theorem fmt02c_ne_nil (n : Nat) : fmt02c n ≠ [] := by
  unfold fmt02c natChars
  by_cases h10 : n < 10
  · simp [if_pos h10]
  · simp only [if_neg h10]
    unfold natCharsFuel
    by_cases h10b : n < 10
    · omega
    · simp [if_neg h10b]

theorem pyIntL_fmt02c (n : Nat) : pyIntL (fmt02c n) = some ((n : Int)) := by
  unfold pyIntL
  rw [trimC_eq_self_of_digits (fmt02c n) (fmt02c_mem n)]
  cases hl : fmt02c n with
  | nil => exact absurd hl (fmt02c_ne_nil n)
  | cons c r =>
    have hcmem : c ∈ digitCharsList := by
      apply fmt02c_mem n
      rw [hl]; exact List.mem_cons_self c r
    simp only [if_neg (digit_ne_plus c hcmem), if_neg (digit_ne_minus c hcmem)]
    have hall : ∀ x ∈ c :: r, x ∈ digitCharsList := by
      intro x hx
      apply fmt02c_mem n
      rw [hl]; exact hx
    rw [natPart_of_digits (c :: r) (by simp) hall]
    have hv : digitsVal (c :: r) = n := by rw [← hl, digitsVal_fmt02c]
    simp [hv]

theorem splitOnChar_cons (c x : Char) (xs : Chars) :
    splitOnChar c (x :: xs) =
      match splitOnChar c xs with
      | [] => if x = c then [[], []] else [[x]]
      | y :: ys => if x = c then [] :: y :: ys else (x :: y) :: ys := rfl

theorem splitOnChar_ne_nil (c : Char) (l : Chars) : splitOnChar c l ≠ [] := by
  cases l with
  | nil => simp [splitOnChar]
  | cons x xs =>
    rw [splitOnChar_cons]
    cases splitOnChar c xs with
    | nil => split_ifs <;> simp
    | cons y ys => split_ifs <;> simp

theorem splitOnChar_of_not_mem (c : Char) (l : Chars) (h : c ∉ l) :
    splitOnChar c l = [l] := by
  induction l with
  | nil => rfl
  | cons x xs ih =>
    have hx : x ≠ c := fun he => h (he ▸ List.mem_cons_self x xs)
    have hxs : c ∉ xs := fun hm => h (List.mem_cons_of_mem x hm)
    rw [splitOnChar_cons, ih hxs]
    simp [hx]

theorem splitOnChar_append (c : Char) (l1 l2 : Chars) (h : c ∉ l1) :
    splitOnChar c (l1 ++ c :: l2) = l1 :: splitOnChar c l2 := by
  induction l1 with
  | nil =>
    simp only [List.nil_append]
    rw [splitOnChar_cons]
    cases hs : splitOnChar c l2 with
    | nil => exact absurd hs (splitOnChar_ne_nil c l2)
    | cons y ys => simp [hs]
  | cons x xs ih =>
    have hx : x ≠ c := fun he => h (he ▸ List.mem_cons_self x xs)
    have hxs : c ∉ xs := fun hm => h (List.mem_cons_of_mem x hm)
    simp only [List.cons_append]
    rw [splitOnChar_cons, ih hxs]
    simp [hx]

theorem fmtHM_data (h m : Nat) :
    (fmtHM h m).data = fmt02c h ++ ':' :: fmt02c m := rfl

theorem fmtHM_ne_empty (h m : Nat) : fmtHM h m ≠ "" := by
  intro he
  have hd : (fmtHM h m).data = ("" : String).data := by rw [he]
  rw [fmtHM_data] at hd
  have hnil : fmt02c h ++ ':' :: fmt02c m = ([] : Chars) := hd
  simp at hnil

theorem validateTimeStr_fmtHM (h m : Nat) :
    validateTimeStr (fmtHM h m) =
      if h < 24 ∧ m < 60 then some (fmtHM h m) else none := by
  unfold validateTimeStr
  rw [fmtHM_data,
    splitOnChar_append ':' (fmt02c h) (fmt02c m)
      (fun hc => digit_ne_colon ':' (fmt02c_mem h ':' hc) rfl),
    splitOnChar_of_not_mem ':' (fmt02c m)
      (fun hc => digit_ne_colon ':' (fmt02c_mem m ':' hc) rfl)]
  simp only [pyIntL_fmt02c]
  by_cases hr : h < 24 ∧ m < 60
  · have hc : 0 ≤ (h : Int) ∧ (h : Int) < 24 ∧ 0 ≤ (m : Int) ∧ (m : Int) < 60 := by
      omega
    rw [if_pos hc, if_pos hr]
  · have hc : ¬(0 ≤ (h : Int) ∧ (h : Int) < 24 ∧ 0 ≤ (m : Int) ∧ (m : Int) < 60) := by
      omega
    rw [if_neg hc, if_neg hr]

theorem firstSub_shape (t : List (String × String)) (l : Chars) :
    firstSub t l = none ∨ ∃ p ∈ t, firstSub t l = some p.2 := by
  induction t with
  | nil => exact Or.inl rfl
  | cons kv rest ih =>
    obtain ⟨k, v⟩ := kv
    by_cases h : subIn k l
    · exact Or.inr ⟨(k, v), List.mem_cons_self _ _, by simp [firstSub, h]⟩
    · rcases ih with h2 | ⟨p, hp, he⟩
      · exact Or.inl (by simp [firstSub, h, h2])
      · exact Or.inr ⟨p, List.mem_cons_of_mem _ hp, by simp [firstSub, h, he]⟩

theorem timeB4_shape (l : Chars) :
    timeB4 l = none ∨ ∃ h m, timeB4 l = some (fmtHM h m) := by
  rcases firstSub_shape timeExpressions l with h | ⟨p, hp, he⟩
  · exact Or.inl h
  · right
    have hex : ∃ hh mm, p.2 = fmtHM hh mm := by
      fin_cases hp <;>
        first
          | exact ⟨12, 0, by decide⟩
          | exact ⟨0, 0, by decide⟩
          | exact ⟨8, 0, by decide⟩
          | exact ⟨14, 0, by decide⟩
          | exact ⟨20, 0, by decide⟩
          | exact ⟨7, 0, by decide⟩
          | exact ⟨8, 30, by decide⟩
          | exact ⟨22, 0, by decide⟩
    obtain ⟨hh, mm, hpe⟩ := hex
    exact ⟨hh, mm, by rw [timeB4, he, hpe]⟩

theorem timeB3_shape (l : Chars) :
    timeB3 l = none ∨ ∃ h m, timeB3 l = some (fmtHM h m) := by
  unfold timeB3
  cases searchL hourHorasAt l with
  | none => exact timeB4_shape l
  | some h =>
    by_cases hh : h < 24
    · exact Or.inr ⟨h, 0, by simp [hh]⟩
    · simpa [hh] using timeB4_shape l

theorem timeB2_shape (l : Chars) :
    timeB2 l = none ∨ ∃ h m, timeB2 l = some (fmtHM h m) := by
  unfold timeB2
  cases searchL ampmAt l with
  | none => exact timeB3_shape l
  | some r => exact Or.inr ⟨ampmAdjust r.1 r.2.2, r.2.1, rfl⟩

theorem extractTime_shape (l : Chars) :
    extractTime l = none ∨ ∃ h m, extractTime l = some (fmtHM h m) := by
  unfold extractTime
  cases searchL t24At l with
  | none => exact timeB2_shape l
  | some p =>
    by_cases hp : p.1 < 24 && p.2 < 60
    · exact Or.inr ⟨p.1, p.2, by simp [hp]⟩
    · simpa [hp] using timeB2_shape l

theorem extractMedicationInfo_time (text : String) :
    (extractMedicationInfo text).time =
      match extractTime (pyStrip (pyLower text.data)) with
      | some s => if s == "" then some s else validateTimeStr s
      | none => none := rfl

theorem extractMedicationInfo_frequency (text : String) :
    (extractMedicationInfo text).frequency =
      some (extractFrequencyC (pyStrip (pyLower text.data))) := rfl

theorem extractMedicationInfo_confidence (text : String) :
    ∃ i, (extractMedicationInfo text).confidence = calculateConfidence i :=
  ⟨_, rfl⟩

theorem clamp_lb (x : ℚ) (h : 42 / 125 ≤ x) :
    42 / 125 ≤ ratMax 0 (ratMin 1 x) := by
  unfold ratMax ratMin
  split_ifs <;> linarith

theorem calculateConfidence_lb (i : MedInfo) :
    42 / 125 ≤ calculateConfidence i := by
  simp only [calculateConfidence]
  apply clamp_lb
  split_ifs <;> norm_num

/-- C6: for every input, the time field of the validated result is either
absent or a zero-padded 24-hour `HH:MM` value with hour below 24 and minute
below 60 (`fmtHM` is exactly the zero-padded rendering `f"{h:02d}:{m:02d}"`);
and on the input "tomar a las 9:75 pm", whose time pattern partially matches
with an out-of-range minute, the field is cleared while the rest of the
record (for example the detected action) survives. -/
theorem c6_time_validity :
    (∀ text : String,
      (extractMedicationInfo text).time = none ∨
      ∃ h m, h < 24 ∧ m < 60 ∧
        (extractMedicationInfo text).time = some (fmtHM h m)) ∧
    (extractMedicationInfo "tomar a las 9:75 pm").time = none ∧
    (extractMedicationInfo "tomar a las 9:75 pm").action =
      some "check_medication" := by
  refine ⟨fun text => ?_, by decide, by decide⟩
  rcases extractTime_shape (pyStrip (pyLower text.data)) with hn | ⟨h, m, he⟩
  · left
    rw [extractMedicationInfo_time, hn]
  · rw [extractMedicationInfo_time, he]
    have hne : (fmtHM h m == "") = false :=
      beq_eq_false_iff_ne.mpr (fmtHM_ne_empty h m)
    simp only [hne, Bool.false_eq_true, if_false, validateTimeStr_fmtHM]
    by_cases hr : h < 24 ∧ m < 60
    · right
      exact ⟨h, m, hr.1, hr.2, by rw [if_pos hr]⟩
    · left
      rw [if_neg hr]

/-- C6 witness: the universally quantified part instantiated at a concrete
input whose time slot canonicalizes to 08:00. -/
theorem c6_time_validity_witness :
    (extractMedicationInfo "tomar omeprazol por la mañana").time = none ∨
    ∃ h m, h < 24 ∧ m < 60 ∧
      (extractMedicationInfo "tomar omeprazol por la mañana").time =
        some (fmtHM h m) :=
  c6_time_validity.1 "tomar omeprazol por la mañana"

/-- C10: on the non-fault path the confidence is always at least
42/125 = 0.336 (hence strictly positive, even for empty or unrecognizable
input), and the fault record is the only way to produce confidence 0. -/
theorem c10_confidence_lower_bound :
    (∀ text : String,
      42 / 125 ≤ (extractMedicationInfo text).confidence ∧
      0 < (extractMedicationInfo text).confidence) ∧
    (∀ e : String, (medFaultRecord e).confidence = 0) := by
  refine ⟨fun text => ?_, fun e => rfl⟩
  obtain ⟨i, hi⟩ := extractMedicationInfo_confidence text
  rw [hi]
  have hb := calculateConfidence_lb i
  exact ⟨hb, lt_of_lt_of_le (by norm_num) hb⟩

/-- C10 witness: the bound instantiated at the empty input, where the
computed confidence is exactly 0.7. -/
theorem c10_confidence_lower_bound_witness :
    42 / 125 ≤ (extractMedicationInfo "").confidence ∧
    0 < (extractMedicationInfo "").confidence :=
  c10_confidence_lower_bound.1 ""

theorem extractMedicationInfo_confidence_eq (text : String) :
    (extractMedicationInfo text).confidence =
      calculateConfidence (extractInfoBase text) := rfl

/-- The scorer as a function of the five branch conditions of
`_calculate_confidence` (used to evaluate concrete confidences without
kernel rational arithmetic). -/
def confFormula (b1 b2 b3 b4 b5 : Bool) : ℚ :=
  let c1 := if b1 then (1 : ℚ) * (7 / 10) else 1
  let c2 := if b2 then c1 * (6 / 10) else c1
  let c3 := if b3 then c2 * (8 / 10) else c2
  let c4 := if b4 then c3 * (12 / 10) else c3
  let c5 := if b5 then c4 * (11 / 10) else c4
  ratMax 0 (ratMin 1 c5)

theorem calculateConfidence_eq_formula (i : MedInfo) :
    calculateConfidence i =
      confFormula i.action.isNone
        ((i.action == some "add_medication") && i.medication.isNone)
        ((i.action == some "add_medication") && i.dosage.isNone)
        (truthyS i.medication && truthyS i.dosage)
        (truthyS i.time) := rfl

theorem confFormula_bonus_clamped : confFormula false false false true true = 1 := by
  norm_num [confFormula, ratMax, ratMin]

theorem confFormula_plain : confFormula false false false false false = 1 := by
  norm_num [confFormula, ratMax, ratMin]

theorem confFormula_no_action : confFormula true false false false false = 7 / 10 := by
  norm_num [confFormula, ratMax, ratMin]

theorem confFormula_add_missing : confFormula false true true false false = 12 / 25 := by
  norm_num [confFormula, ratMax, ratMin]

/-- Helper: the confidence of a validated extraction, evaluated through the
five branch conditions of the scorer. -/
theorem confidence_eval (text : String) (b1 b2 b3 b4 b5 : Bool)
    (h1 : (extractInfoBase text).action.isNone = b1)
    (h2 : ((extractInfoBase text).action == some "add_medication" &&
      (extractInfoBase text).medication.isNone) = b2)
    (h3 : ((extractInfoBase text).action == some "add_medication" &&
      (extractInfoBase text).dosage.isNone) = b3)
    (h4 : (truthyS (extractInfoBase text).medication &&
      truthyS (extractInfoBase text).dosage) = b4)
    (h5 : truthyS (extractInfoBase text).time = b5) :
    (extractMedicationInfo text).confidence = confFormula b1 b2 b3 b4 b5 := by
  rw [extractMedicationInfo_confidence_eq, calculateConfidence_eq_formula,
    h1, h2, h3, h4, h5]

/-- Scenario 1 input (spec §8). -/
def inputScenario1 : String :=
  "agregar paracetamol 500 mg a las 8 de la mañana cada 12 horas por 14 días"

/-- C1: on the Scenario 1 input the interpreter returns the add-medication
action, entity "Paracetamol", dosage amount 500 with unit mg, time 08:00,
frequency every-12-hours, a duration of 14 days (via the spec's days/weeks
(×7)/months (×30) canonicalization map `specDurationDays`), and confidence
exactly 1. -/
theorem c1_scenario1_add_medication :
    specActionOf ((extractMedicationInfo inputScenario1).action) =
      SpecAction.addMedication ∧
    (extractMedicationInfo inputScenario1).medication = some "Paracetamol" ∧
    specDosageAmount ((extractMedicationInfo inputScenario1).dosage) = some 500 ∧
    specDosageUnit ((extractMedicationInfo inputScenario1).dosage) = some "mg" ∧
    (extractMedicationInfo inputScenario1).time = some "08:00" ∧
    specFrequencyOf ((extractMedicationInfo inputScenario1).frequency) =
      some (SpecFrequency.everyNHours 12) ∧
    specDurationDays ((extractMedicationInfo inputScenario1).duration) = some 14 ∧
    (extractMedicationInfo inputScenario1).confidence = 1 := by
  refine ⟨by decide, by decide, by decide, by decide, by decide, by decide,
    by decide, ?_⟩
  rw [confidence_eval inputScenario1 false false false true true (by decide)
    (by decide) (by decide) (by decide) (by decide)]
  exact confFormula_bonus_clamped

/-- C2 counterexample: the fault record carries no `raw_text` key at all, so
it is not the original input, contradicting the claim that `rawText` is set
on the fault path. -/
theorem c2_fault_counterexample :
    (medFaultRecord "boom").rawText = none ∧
    (medFaultRecord "boom").rawText ≠ some "agregar paracetamol" := by
  exact ⟨rfl, by decide⟩

/-- C2 (amended): the orchestrator's fault path returns a fixed well-formed
record with `action = Unknown` (None), every extraction field empty,
confidence 0 and the error text — but no `rawText` field (the `except`
branch's dict omits the `raw_text`, `quantity` and `duration` keys). -/
theorem c2_fault_amended (e : String) :
    (medFaultRecord e).action = none ∧
    (medFaultRecord e).medication = none ∧
    (medFaultRecord e).dosage = none ∧
    (medFaultRecord e).frequency = none ∧
    (medFaultRecord e).time = none ∧
    (medFaultRecord e).quantity = none ∧
    (medFaultRecord e).duration = none ∧
    (medFaultRecord e).confidence = 0 ∧
    (medFaultRecord e).rawText = none ∧
    (medFaultRecord e).error = some e ∧
    specActionOf ((medFaultRecord e).action) = SpecAction.unknown :=
  ⟨rfl, rfl, rfl, rfl, rfl, rfl, rfl, rfl, rfl, rfl, rfl⟩

/-- C2 witness: the amended fault-record description at a concrete error. -/
theorem c2_fault_amended_witness :
    (medFaultRecord "lookup failed").action = none ∧
    (medFaultRecord "lookup failed").medication = none ∧
    (medFaultRecord "lookup failed").dosage = none ∧
    (medFaultRecord "lookup failed").frequency = none ∧
    (medFaultRecord "lookup failed").time = none ∧
    (medFaultRecord "lookup failed").quantity = none ∧
    (medFaultRecord "lookup failed").duration = none ∧
    (medFaultRecord "lookup failed").confidence = 0 ∧
    (medFaultRecord "lookup failed").rawText = none ∧
    (medFaultRecord "lookup failed").error = some "lookup failed" ∧
    specActionOf ((medFaultRecord "lookup failed").action) = SpecAction.unknown :=
  c2_fault_amended "lookup failed"

/-- Scenario 3 input (spec §8). -/
def inputScenario3 : String := "eliminar ibuprofeno"

/-- C3 counterexample: for the delete action "eliminar ibuprofeno" the
frequency is NOT absent — the extractor's unconditional default fills it with
Daily; and for an add action with no duration phrase the duration stays
absent — there is no 7-day default anywhere in the parser. -/
theorem c3_defaults_counterexample :
    specActionOf ((extractMedicationInfo inputScenario3).action) =
      SpecAction.deleteMedication ∧
    (extractMedicationInfo inputScenario3).frequency = some "Diario" ∧
    (extractMedicationInfo "agregar paracetamol 500 mg").action =
      some "add_medication" ∧
    (extractMedicationInfo "agregar paracetamol 500 mg").duration = none := by
  refine ⟨by decide, by decide, by decide, by decide⟩

/-- C3 (amended): the frequency default `Daily` is applied unconditionally,
for every action — the frequency field of every interpreted record is
populated; no duration default exists for any action.  For
"eliminar ibuprofeno" the result is the delete action with entity
"Ibuprofeno", frequency holding the default Daily, and every other optional
field absent (confidence 1). -/
theorem c3_defaults_amended :
    (∀ text : String, (extractMedicationInfo text).frequency.isSome = true) ∧
    (extractMedicationInfo inputScenario3).action = some "delete_medication" ∧
    (extractMedicationInfo inputScenario3).medication = some "Ibuprofeno" ∧
    (extractMedicationInfo inputScenario3).dosage = none ∧
    (extractMedicationInfo inputScenario3).frequency = some "Diario" ∧
    (extractMedicationInfo inputScenario3).time = none ∧
    (extractMedicationInfo inputScenario3).quantity = none ∧
    (extractMedicationInfo inputScenario3).duration = none ∧
    (extractMedicationInfo "agregar paracetamol 500 mg").duration = none ∧
    (extractMedicationInfo inputScenario3).confidence = 1 := by
  refine ⟨fun text => ?_, by decide, by decide, by decide, by decide,
    by decide, by decide, by decide, by decide, ?_⟩
  · rw [extractMedicationInfo_frequency]
    rfl
  · rw [confidence_eval inputScenario3 false false false false false
      (by decide) (by decide) (by decide) (by decide) (by decide)]
    exact confFormula_plain

/-- C3 witness: the universally quantified frequency-population part at a
concrete input. -/
theorem c3_defaults_amended_witness :
    (extractMedicationInfo "recordar omeprazol").frequency.isSome = true :=
  c3_defaults_amended.1 "recordar omeprazol"

/-- Scenario 2 input (spec §8). -/
def inputScenario2 : String := "¿qué medicamentos tengo hoy?"

/-- C4 counterexample: on "¿qué medicamentos tengo hoy?" the first keyword in
table order that occurs in the text is "qué" (a list-class keyword, listed
before "hoy"), so the detected action is ListMedications — not CheckToday as
the claim asserts; moreover the frequency field is not absent (it holds the
unconditional Daily default). -/
theorem c4_priority_counterexample :
    specActionOf ((extractMedicationInfo inputScenario2).action) =
      SpecAction.listMedications ∧
    specActionOf ((extractMedicationInfo inputScenario2).action) ≠
      SpecAction.checkToday ∧
    (extractMedicationInfo inputScenario2).frequency = some "Diario" := by
  refine ⟨by decide, by decide, by decide⟩

/-- C4 (amended): action detection resolves multiple action-like keywords by
the fixed order of the keyword table (first table entry occurring as a
substring wins), so "¿qué medicamentos tengo hoy?" resolves to
ListMedications ("qué" precedes "hoy" in the table); all other optional
fields are absent except frequency, which carries the unconditional Daily
default, and the confidence is 1. -/
theorem c4_priority_amended :
    (extractMedicationInfo inputScenario2).action = some "list_medications" ∧
    (extractMedicationInfo inputScenario2).medication = none ∧
    (extractMedicationInfo inputScenario2).dosage = none ∧
    (extractMedicationInfo inputScenario2).frequency = some "Diario" ∧
    (extractMedicationInfo inputScenario2).time = none ∧
    (extractMedicationInfo inputScenario2).quantity = none ∧
    (extractMedicationInfo inputScenario2).duration = none ∧
    (extractMedicationInfo inputScenario2).rawText = some inputScenario2 ∧
    (extractMedicationInfo inputScenario2).confidence = 1 := by
  refine ⟨by decide, by decide, by decide, by decide, by decide, by decide,
    by decide, by decide, ?_⟩
  rw [confidence_eval inputScenario2 false false false false false
    (by decide) (by decide) (by decide) (by decide) (by decide)]
  exact confFormula_plain

/-- C5 counterexample: on the empty input the interpreter raises nothing,
but the returned record has confidence 0.7 (the missing-action penalty), not
0, and its frequency field is not absent (the Daily default). -/
theorem c5_empty_counterexample :
    (extractMedicationInfo "").confidence = 7 / 10 ∧
    (7 / 10 : ℚ) ≠ 0 ∧
    (extractMedicationInfo "").frequency = some "Diario" := by
  refine ⟨?_, by norm_num, by decide⟩
  rw [confidence_eval "" true false false false false
    (by decide) (by decide) (by decide) (by decide) (by decide)]
  exact confFormula_no_action

/-- C5 (amended): on the empty input the interpreter returns (without
raising) action Unknown (None) and every extraction field absent except the
unconditionally defaulted frequency (Daily); the confidence is 0.7 — the
no-action penalty — not 0. -/
theorem c5_empty_amended :
    (extractMedicationInfo "").action = none ∧
    specActionOf ((extractMedicationInfo "").action) = SpecAction.unknown ∧
    (extractMedicationInfo "").medication = none ∧
    (extractMedicationInfo "").dosage = none ∧
    (extractMedicationInfo "").frequency = some "Diario" ∧
    (extractMedicationInfo "").time = none ∧
    (extractMedicationInfo "").quantity = none ∧
    (extractMedicationInfo "").duration = none ∧
    (extractMedicationInfo "").rawText = some "" ∧
    (extractMedicationInfo "").confidence = 7 / 10 := by
  refine ⟨by decide, by decide, by decide, by decide, by decide, by decide,
    by decide, by decide, by decide, ?_⟩
  rw [confidence_eval "" true false false false false
    (by decide) (by decide) (by decide) (by decide) (by decide)]
  exact confFormula_no_action

/-- C7 counterexample: "tres veces al día" is not in the frequency table — it
falls through to the Daily default — so it does NOT map to the same canonical
value as "cada 8 horas". -/
theorem c7_frequency_counterexample :
    ¬(extractFrequency "cada 8 horas" = extractFrequency "tres veces al día" ∧
      extractFrequency "cada 12 horas" = extractFrequency "dos veces al día") := by
  decide

/-- C7 (amended): "cada 12 horas" and "dos veces al día" canonicalize to the
identical value, but "tres veces al día" is absent from the frequency table
and falls to the Daily default, which differs from the value of
"cada 8 horas". -/
theorem c7_frequency_amended :
    extractFrequency "cada 12 horas" = "Cada 12 horas" ∧
    extractFrequency "dos veces al día" = "Cada 12 horas" ∧
    extractFrequency "cada 8 horas" = "Cada 8 horas" ∧
    extractFrequency "tres veces al día" = "Diario" ∧
    extractFrequency "cada 8 horas" ≠ extractFrequency "tres veces al día" := by
  refine ⟨by decide, by decide, by decide, by decide, by decide⟩

/-- C8 counterexample: the generator has no cap parameter, and on the base
command "agrégame paracetamol" its first two emitted variations are the
identical string (the action-synonym fallback list repeats the base action),
so the output is not duplicate-free. -/
theorem c8_variation_counterexample :
    ((generateVariations "agrégame paracetamol").get? 0).isSome = true ∧
    (generateVariations "agrégame paracetamol").get? 0 =
      (generateVariations "agrégame paracetamol").get? 1 := by
  refine ⟨by decide, by decide⟩

/-- C8 (amended): for every base command the generator deterministically
returns at most 50 strings (the cap is the hard-coded internal constant 50,
not a parameter), but the output may contain duplicate entries — it is not
deduplicated. -/
theorem c8_variation_amended (cmd : String) :
    (generateVariations cmd).length ≤ 50 := by
  simp only [generateVariations]
  split
  · simp
  · exact List.length_take_le 50 _

/-- C8 witness: the cap bound at a concrete base command. -/
theorem c8_variation_amended_witness :
    (generateVariations "agrégame paracetamol de 500 mg").length ≤ 50 :=
  c8_variation_amended "agrégame paracetamol de 500 mg"

/-- C9 counterexample: two interpreted results with exactly the same set of
populated fields (action present, everything optional else equal) but
different action values ("agregar" detects add, "eliminar" detects delete)
receive different confidences (0.48 versus 1), so the score is not a function
of presence alone. -/
theorem c9_confidence_counterexample :
    (extractMedicationInfo "agregar").action.isSome =
      (extractMedicationInfo "eliminar").action.isSome ∧
    (extractMedicationInfo "agregar").medication.isSome =
      (extractMedicationInfo "eliminar").medication.isSome ∧
    (extractMedicationInfo "agregar").dosage.isSome =
      (extractMedicationInfo "eliminar").dosage.isSome ∧
    (extractMedicationInfo "agregar").frequency.isSome =
      (extractMedicationInfo "eliminar").frequency.isSome ∧
    (extractMedicationInfo "agregar").time.isSome =
      (extractMedicationInfo "eliminar").time.isSome ∧
    (extractMedicationInfo "agregar").quantity.isSome =
      (extractMedicationInfo "eliminar").quantity.isSome ∧
    (extractMedicationInfo "agregar").duration.isSome =
      (extractMedicationInfo "eliminar").duration.isSome ∧
    (extractMedicationInfo "agregar").confidence ≠
      (extractMedicationInfo "eliminar").confidence := by
  refine ⟨by decide, by decide, by decide, by decide, by decide, by decide,
    by decide, ?_⟩
  rw [confidence_eval "agregar" false true true false false
    (by decide) (by decide) (by decide) (by decide) (by decide),
    confidence_eval "eliminar" false false false false false
    (by decide) (by decide) (by decide) (by decide) (by decide),
    confFormula_add_missing, confFormula_plain]
  norm_num

/-- C9 (amended): the confidence is a deterministic pure function of the five
branch conditions of the scorer — whether the action is absent, whether it
equals add-medication, which of medication/dosage are absent, and the
truthiness of medication, dosage and time; it depends on no other part of the
record and on no randomness or extraction order. -/
theorem c9_confidence_amended (i1 i2 : MedInfo)
    (h1 : i1.action.isNone = i2.action.isNone)
    (h2 : (i1.action == some "add_medication") = (i2.action == some "add_medication"))
    (h3 : i1.medication.isNone = i2.medication.isNone)
    (h4 : i1.dosage.isNone = i2.dosage.isNone)
    (h5 : truthyS i1.medication = truthyS i2.medication)
    (h6 : truthyS i1.dosage = truthyS i2.dosage)
    (h7 : truthyS i1.time = truthyS i2.time) :
    calculateConfidence i1 = calculateConfidence i2 := by
  rw [calculateConfidence_eq_formula, calculateConfidence_eq_formula,
    h1, h2, h3, h4, h5, h6, h7]

/-- Record A for the C9 witness. -/
def c9recA : MedInfo :=
  { action := some "add_medication", medication := some "Paracetamol",
    dosage := some "500mg", frequency := some "Diario", time := some "08:00",
    quantity := none, duration := some "7 días", confidence := 1,
    rawText := some "a", error := none }

/-- Record B for the C9 witness: same populated slots, different values. -/
def c9recB : MedInfo :=
  { action := some "add_medication", medication := some "Ibuprofeno",
    dosage := some "200mg", frequency := some "Semanal", time := some "21:30",
    quantity := none, duration := some "14 días", confidence := 0,
    rawText := some "b", error := none }

/-- C9 witness: the amended purity statement applied to two concrete records
with identical slot-presence pattern but different field values. -/
theorem c9_confidence_amended_witness :
    c9recA.action.isNone = c9recB.action.isNone ∧
    truthyS c9recA.medication = truthyS c9recB.medication ∧
    calculateConfidence c9recA = calculateConfidence c9recB :=
  ⟨by decide, by decide,
    c9_confidence_amended c9recA c9recB (by decide) (by decide) (by decide)
      (by decide) (by decide) (by decide) (by decide)⟩
